import Mathlib

/-!
Shallow embedding of `src/app_divida_publica.py` (the Query/Answer Engine
`responder_pergunta` and the loader `carregar_dataframes`).

Modelling conventions:
* pandas DataFrames become lists of typed records in input order;
  `df[df['ano'] == a]` becomes `List.filter`, `Series.sum` becomes a list sum.
* Numeric cells are exact rationals (`ℚ`).  Python float formatting is
  modelled on the exact value: `str(x)` (used by the direct answers, which
  interpolate the raw cell) becomes `decRepr`, the shortest terminating
  decimal expansion with at least one fractional digit, which agrees with
  CPython shortest-round-trip printing on the short decimal literals the
  snapshot JSON files contain; `f"{x:.1f}"` becomes `format1`
  (round-half-even to one fractional digit, as CPython rounds).
* `Series.idxmax` / `Series.idxmin` return the label of the first occurrence
  of the extremum; composed with `.loc` this is `argmaxFirst` /
  `argminFirst` on the slice.  On an empty slice pandas raises
  `ValueError` with numpy's argmax/argmin message; the embedding returns
  `none` and the engine turns that into the `try/except` error result.
* `sort_values(by=k, ascending=False)` becomes `sortDescBy`.  The snapshot
  tables have far fewer than 16 rows, so numpy's default quicksort runs its
  insertion-sort path, which keeps equal keys in input order; a stable
  insertion sort therefore models it.
* The `try: ... except Exception as e: return f"Ocorreu um erro..."` wrapper
  becomes an `Except String String` core (`responderCore`) unwrapped by
  `responder_pergunta`.
-/

/-- Row of `dados_evolucao_divida.json` (`df_evolucao`, indexed by `ano`). -/
structure EvolucaoRec where
  ano : Int
  valor_trilhoes : ℚ
deriving DecidableEq

/-- Row of `dados_detentores_divida.json` (`df_detentores`). -/
structure DetentorRec where
  credor : String
  porcentagem : ℚ
deriving DecidableEq

/-- Row of `dados_gastos_comparativo.json` (`df_gastos`). -/
structure GastoRec where
  funcao : String
  ano : Int
  valor_bi : ℚ
deriving DecidableEq

/-! Decimal printing primitives used to model Python string formatting. -/

/-- Fuel-driven digit expansion; `fuel` bounds the number of digits, so the
fallback `[]` is never reached from `natChars`. -/
def natCharsAux : ℕ → ℕ → List Char
  | 0, _ => []
  | fuel + 1, n =>
    if n < 10 then [Nat.digitChar n]
    else natCharsAux fuel (n / 10) ++ [Nat.digitChar (n % 10)]

/-- Decimal digit characters of a natural number, most significant first. -/
def natChars (n : ℕ) : List Char := natCharsAux (n + 1) n

/-- Decimal string of an integer, modelling Python `str` on `int`. -/
def intStr (z : Int) : String :=
  if z < 0 then ⟨'-' :: natChars z.natAbs⟩ else ⟨natChars z.natAbs⟩

/-- Round to the nearest integer, halves to even, as CPython's float
formatting does. -/
def roundHalfEven (q : ℚ) : Int :=
  let f := ⌊q⌋
  if q - f < 1/2 then f
  else if (1:ℚ)/2 < q - f then f + 1
  else if f % 2 = 0 then f else f + 1

/-- Character list of `format1`. -/
def format1Chars (q : ℚ) : List Char :=
  let t := roundHalfEven (q * 10)
  (if t < 0 then ['-'] else [])
    ++ natChars (t.natAbs / 10) ++ '.' :: natChars (t.natAbs % 10)

/-- Model of the Python format spec `:.1f`: one fractional digit,
round-half-even on the (exact) value. -/
def format1 (q : ℚ) : String := ⟨format1Chars q⟩

/-- Number of fractional digits Python would print for `q`: the least
`n ≥ 1` (capped at 17, the float shortest-repr bound) with `q·10^n` an
integer. -/
def decExp (q : ℚ) : ℕ :=
  match (List.range 17).find? (fun k => (q * 10 ^ (k + 1)).den == 1) with
  | some k => k + 1
  | none => 17

/-- Character list of `decRepr`. -/
def decReprChars (q : ℚ) : List Char :=
  let n := decExp q
  let m := (q * 10 ^ n).num
  (if q < 0 then ['-'] else [])
    ++ natChars (m.natAbs / 10 ^ n) ++ '.'
    :: (List.replicate (n - (natChars (m.natAbs % 10 ^ n)).length) '0'
        ++ natChars (m.natAbs % 10 ^ n))

/-- Model of Python `str()` on a float table cell: shortest terminating
decimal expansion, at least one fractional digit (`str(5.0) = "5.0"`). -/
def decRepr (q : ℚ) : String := ⟨decReprChars q⟩

/-- Number of characters after the last `'.'` of a string (fractional-digit
count of a decimal rendering). -/
def fracDigits (s : String) : ℕ :=
  (s.data.reverse.takeWhile (fun c => c != '.')).length

/-! Aggregation primitives modelling the pandas calls. -/

/-- First element attaining the maximum of `key`, modelling
`Series.idxmax` (label of first occurrence) composed with `.loc`;
`none` on the empty slice, where pandas raises `ValueError`. -/
def argmaxFirst (key : α → ℚ) : List α → Option α
  | [] => none
  | x :: xs =>
    match argmaxFirst key xs with
    | none => some x
    | some y => if key x < key y then some y else some x

/-- First element attaining the minimum of `key`, modelling
`Series.idxmin` composed with `.loc`. -/
def argminFirst (key : α → ℚ) : List α → Option α
  | [] => none
  | x :: xs =>
    match argminFirst key xs with
    | none => some x
    | some y => if key y < key x then some y else some x

/-- Descending key order: `x` before `y` when `key y ≤ key x`. -/
def byKeyGE (key : α → ℚ) (x y : α) : Prop := key y ≤ key x

instance (key : α → ℚ) : DecidableRel (byKeyGE key) :=
  fun x y => inferInstanceAs (Decidable (key y ≤ key x))

instance (key : α → ℚ) : IsTotal α (byKeyGE key) :=
  ⟨fun a b => le_total (key b) (key a)⟩

instance (key : α → ℚ) : IsTrans α (byKeyGE key) :=
  ⟨fun _ _ _ h1 h2 => le_trans h2 h1⟩

/-- Model of `DataFrame.sort_values(by=key, ascending=False)`.  The snapshot
tables are far below numpy's 16-element quicksort cutoff, so the actual sort
runs numpy's insertion-sort path, which keeps equal keys in input order; a
stable insertion sort models it. -/
def sortDescBy (key : α → ℚ) (l : List α) : List α :=
  List.insertionSort (byKeyGE key) l

/-! The Query/Answer Engine (`responder_pergunta`, lines 133-204). -/

/-- Model of `df_gastos[df_gastos['ano'] == a]`. -/
def filterAno (a : Int) (g : List GastoRec) : List GastoRec :=
  g.filter (fun r => r.ano == a)

/-- Model of `df['valor_bi'].sum()`. -/
def somaValorBi (l : List GastoRec) : ℚ :=
  (l.map (fun r => r.valor_bi)).sum

/-- Slice of the spending table for year `a` with the `porcentagem` column
attached (`df['porcentagem'] = (df['valor_bi'] / total) * 100`), in input
order.  On a zero total the Lean division yields `0` where pandas float
division yields `NaN`/`inf`; either way the shares do not sum to 100. -/
def gastosComPct (a : Int) (g : List GastoRec) : List (GastoRec × ℚ) :=
  let slice := filterAno a g
  let total := somaValorBi slice
  slice.map (fun r => (r, r.valor_bi / total * 100))

/-- The year-`a` spending slice with shares, sorted descending by share
(`sort_values(by='porcentagem', ascending=False)`). -/
def listaGastosAno (a : Int) (g : List GastoRec) : List (GastoRec × ℚ) :=
  sortDescBy (fun p => p.2) (gastosComPct a g)

/-- One markdown bullet of a spending listing answer
(`f"- **{funcao}**: R$ {valor_bi:.1f} bi ({porcentagem:.1f}% do total listado)\n"`). -/
def linhaGasto (p : GastoRec × ℚ) : String :=
  "- **" ++ p.1.funcao ++ "**: R$ " ++ format1 p.1.valor_bi
    ++ " bi (" ++ format1 p.2 ++ "% do total listado)\n"

/-- A spending listing answer: header plus accumulated bullets
(`resposta_md += ...` over `df.iterrows()`). -/
def respListaGastos (cab : String) (a : Int) (g : List GastoRec) : String :=
  (listaGastosAno a g).foldl (fun acc p => acc ++ linhaGasto p) cab

/-- The holders table sorted descending by `porcentagem`. -/
def listaDetentores (d : List DetentorRec) : List DetentorRec :=
  sortDescBy (fun r => r.porcentagem) d

/-- One markdown bullet of the holders listing
(`f"- **{credor}**: {porcentagem:.1f}%\n"`). -/
def linhaDetentor (r : DetentorRec) : String :=
  "- **" ++ r.credor ++ "**: " ++ format1 r.porcentagem ++ "%\n"

/-- The holders listing answer. -/
def respListaDetentores (d : List DetentorRec) : String :=
  (listaDetentores d).foldl (fun acc r => acc ++ linhaDetentor r)
    ("### Credores da Dívida (do maior para o menor):\n\n")

/-- Largest 2018 spending record (`idxmax` + `loc` on the 2018 slice). -/
def maxGasto2018 (g : List GastoRec) : Option GastoRec :=
  argmaxFirst (fun r => r.valor_bi) (filterAno 2018 g)

/-- Smallest 2018 spending record. -/
def minGasto2018 (g : List GastoRec) : Option GastoRec :=
  argminFirst (fun r => r.valor_bi) (filterAno 2018 g)

/-- Largest 2024 spending record. -/
def maxGasto2024 (g : List GastoRec) : Option GastoRec :=
  argmaxFirst (fun r => r.valor_bi) (filterAno 2024 g)

/-- Holder with the largest share. -/
def topDetentor (d : List DetentorRec) : Option DetentorRec :=
  argmaxFirst (fun r => r.porcentagem) d

/-- Evolution row with the largest stock (`df_evolucao` is indexed by
`ano`, so `idxmax` plus `.loc` yields this row). -/
def anoMaxEstoque (e : List EvolucaoRec) : Option EvolucaoRec :=
  argmaxFirst (fun r => r.valor_trilhoes) e

/-- Evolution row with the smallest stock. -/
def anoMinEstoque (e : List EvolucaoRec) : Option EvolucaoRec :=
  argminFirst (fun r => r.valor_trilhoes) e

/-- Message of the `ValueError` numpy raises for `idxmax` on an empty
slice, caught by the engine's `except` clause. -/
def msgArgmaxVazio : String := "attempt to get argmax of an empty sequence"

/-- Message of the `ValueError` for `idxmin` on an empty slice. -/
def msgArgminVazio : String := "attempt to get argmin of an empty sequence"

/-- The generic answer produced by the `except Exception` clause. -/
def respostaErro (msg : String) : String :=
  "Ocorreu um erro ao processar sua pergunta: " ++ msg

/-- Body of the `try` block of `responder_pergunta`: the question dispatch
chain.  Raised exceptions are modelled as `Except.error` carrying the
exception text. -/
def responderCore (pergunta : String) (df_evolucao : List EvolucaoRec)
    (df_detentores : List DetentorRec) (df_gastos : List GastoRec) :
    Except String String :=
  if pergunta = "Listar todos os gastos de 2024 (do maior para o menor)" then
    Except.ok (respListaGastos
      ("### Gastos de 2024 (do maior para o menor):\n\n") 2024 df_gastos)
  else if pergunta = "Listar todos os gastos de 2018 (do maior para o menor)" then
    Except.ok (respListaGastos
      ("### Gastos de 2018 (do maior para o menor):\n\n") 2018 df_gastos)
  else if pergunta = "Listar todos os credores da Dívida (do maior para o menor)" then
    Except.ok (respListaDetentores df_detentores)
  else if pergunta = "Qual foi o maior gasto em 2018?" then
    match maxGasto2018 df_gastos with
    | none => Except.error msgArgmaxVazio
    | some gasto => Except.ok
        ("O maior gasto em 2018 foi com **" ++ gasto.funcao
          ++ "**, no valor de **R$ " ++ decRepr gasto.valor_bi ++ " Bilhões**.")
  else if pergunta = "Qual foi o menor gasto em 2018?" then
    match minGasto2018 df_gastos with
    | none => Except.error msgArgminVazio
    | some gasto => Except.ok
        ("O menor gasto em 2018 (entre os principais listados) foi com **"
          ++ gasto.funcao ++ "**, no valor de **R$ "
          ++ decRepr gasto.valor_bi ++ " Bilhões**.")
  else if pergunta = "Qual foi o maior gasto em 2024?" then
    match maxGasto2024 df_gastos with
    | none => Except.error msgArgmaxVazio
    | some gasto => Except.ok
        ("O maior gasto em 2024 é com **" ++ gasto.funcao
          ++ "**, no valor de **R$ " ++ decRepr gasto.valor_bi ++ " Bilhões**.")
  else if pergunta = "Qual o principal credor da Dívida Pública?" then
    match topDetentor df_detentores with
    | none => Except.error msgArgmaxVazio
    | some credor => Except.ok
        ("O principal credor da Dívida Pública são os **" ++ credor.credor
          ++ "**, detendo **" ++ decRepr credor.porcentagem ++ "%** do total.")
  else if pergunta = "Qual foi o ano com o maior estoque da Dívida?" then
    match anoMaxEstoque df_evolucao with
    | none => Except.error msgArgmaxVazio
    | some r => Except.ok
        ("O ano com o maior estoque da Dívida Pública no período foi **"
          ++ intStr r.ano ++ "**, atingindo **R$ "
          ++ decRepr r.valor_trilhoes ++ " Trilhões**.")
  else if pergunta = "Qual foi o ano com o menor estoque da Dívida?" then
    match anoMinEstoque df_evolucao with
    | none => Except.error msgArgminVazio
    | some r => Except.ok
        ("O ano com o menor estoque da Dívida Pública no período foi **"
          ++ intStr r.ano ++ "**, com **R$ "
          ++ decRepr r.valor_trilhoes ++ " Trilhões**.")
  else
    Except.ok ("Selecione uma pergunta.")

/-- Model of `responder_pergunta` (lines 133-204): the `try` body with the
`except Exception` clause converting any raised fault into the generic
error answer, and the fall-through `return "Selecione uma pergunta."`. -/
def responder_pergunta (pergunta : String) (df_evolucao : List EvolucaoRec)
    (df_detentores : List DetentorRec) (df_gastos : List GastoRec) : String :=
  match responderCore pergunta df_evolucao df_detentores df_gastos with
  | Except.ok s => s
  | Except.error msg => respostaErro msg

/-- The questions handled by the dispatch chain — the closed catalog. -/
def perguntasCatalogo : List String :=
  [ "Listar todos os gastos de 2024 (do maior para o menor)",
    "Listar todos os gastos de 2018 (do maior para o menor)",
    "Listar todos os credores da Dívida (do maior para o menor)",
    "Qual foi o maior gasto em 2018?",
    "Qual foi o menor gasto em 2018?",
    "Qual foi o maior gasto em 2024?",
    "Qual o principal credor da Dívida Pública?",
    "Qual foi o ano com o maior estoque da Dívida?",
    "Qual foi o ano com o menor estoque da Dívida?" ]

/-- The three listing questions (answers rendered as markdown lists,
selected by the presentation layer via `"###" in resposta`). -/
def perguntasListagem : List String :=
  [ "Listar todos os gastos de 2024 (do maior para o menor)",
    "Listar todos os gastos de 2018 (do maior para o menor)",
    "Listar todos os credores da Dívida (do maior para o menor)" ]

/-! The loader (`carregar_dados_json`, lines 25-36, and
`carregar_dataframes`, lines 38-51). -/

/-- State of one named JSON snapshot source: missing file
(`FileNotFoundError`), unreadable/malformed content (the generic
`except Exception` branch), or a parsed record list. -/
inductive Fonte (α : Type) where
  | ausente : Fonte α
  | malformada : Fonte α
  | dados : List α → Fonte α
deriving DecidableEq

/-- Model of `carregar_dados_json`: returns the parsed data, or `none`
after displaying an error (`st.error` is presentation-layer and not
modelled). -/
def carregar_dados_json : Fonte α → Option (List α)
  | Fonte.ausente => none
  | Fonte.malformada => none
  | Fonte.dados l => some l

/-- Python truthiness of a `carregar_dados_json` result: `None` is falsy,
and so is a successfully parsed empty list. -/
def pdTruthy : Option (List α) → Bool
  | none => false
  | some l => !l.isEmpty

/-- Model of `carregar_dataframes`: loads the three sources and returns
the three tables when `dados_evolucao and dados_detentores and dados_gastos`
is truthy, and `(None, None, None)` otherwise. -/
def carregar_dataframes (fe : Fonte EvolucaoRec) (fd : Fonte DetentorRec)
    (fg : Fonte GastoRec) :
    Option (List EvolucaoRec) × Option (List DetentorRec) × Option (List GastoRec) :=
  let dados_evolucao := carregar_dados_json fe
  let dados_detentores := carregar_dados_json fd
  let dados_gastos := carregar_dados_json fg
  if pdTruthy dados_evolucao && pdTruthy dados_detentores && pdTruthy dados_gastos then
    (dados_evolucao, dados_detentores, dados_gastos)
  else
    (none, none, none)

/-! Store-passing view of the engine, for the frame claim.  The three
loaded DataFrames are the only shared state a call can reach; every pandas
operation the engine performs returns a fresh frame (`df[mask]`,
`sort_values`, `idxmax`), and the one in-place column assignment
(`df_X['porcentagem'] = ...`) targets the slice obtained with `.copy()`,
so no branch writes to the store. -/

/-- The session store: the three tables returned by `carregar_dataframes`. -/
structure Tabelas where
  df_evolucao : List EvolucaoRec
  df_detentores : List DetentorRec
  df_gastos : List GastoRec
deriving DecidableEq

/-- Listing branch over the store: `df_a` is the `.copy()` of the year
slice, the `porcentagem` column assignment updates only that local copy,
and the store component is returned untouched. -/
def respListaGastosSt (cab : String) (a : Int) (t : Tabelas) : String × Tabelas :=
  let df_a := filterAno a t.df_gastos
  let comPct := df_a.map (fun r => (r, r.valor_bi / somaValorBi df_a * 100))
  let ordenado := sortDescBy (fun p => p.2) comPct
  (ordenado.foldl (fun acc p => acc ++ linhaGasto p) cab, t)

/-- Model of `responder_pergunta` threading the store explicitly: each
branch computes its answer from the store and hands the store back
unchanged, mirroring that every branch of the source only reads the
loaded frames. -/
def responderSt (pergunta : String) (t : Tabelas) : String × Tabelas :=
  if pergunta = "Listar todos os gastos de 2024 (do maior para o menor)" then
    respListaGastosSt ("### Gastos de 2024 (do maior para o menor):\n\n") 2024 t
  else if pergunta = "Listar todos os gastos de 2018 (do maior para o menor)" then
    respListaGastosSt ("### Gastos de 2018 (do maior para o menor):\n\n") 2018 t
  else if pergunta = "Listar todos os credores da Dívida (do maior para o menor)" then
    ((sortDescBy (fun r => r.porcentagem) t.df_detentores).foldl
      (fun acc r => acc ++ linhaDetentor r)
      ("### Credores da Dívida (do maior para o menor):\n\n"), t)
  else if pergunta = "Qual foi o maior gasto em 2018?" then
    match maxGasto2018 t.df_gastos with
    | none => (respostaErro msgArgmaxVazio, t)
    | some gasto =>
      ("O maior gasto em 2018 foi com **" ++ gasto.funcao
        ++ "**, no valor de **R$ " ++ decRepr gasto.valor_bi ++ " Bilhões**.", t)
  else if pergunta = "Qual foi o menor gasto em 2018?" then
    match minGasto2018 t.df_gastos with
    | none => (respostaErro msgArgminVazio, t)
    | some gasto =>
      ("O menor gasto em 2018 (entre os principais listados) foi com **"
        ++ gasto.funcao ++ "**, no valor de **R$ "
        ++ decRepr gasto.valor_bi ++ " Bilhões**.", t)
  else if pergunta = "Qual foi o maior gasto em 2024?" then
    match maxGasto2024 t.df_gastos with
    | none => (respostaErro msgArgmaxVazio, t)
    | some gasto =>
      ("O maior gasto em 2024 é com **" ++ gasto.funcao
        ++ "**, no valor de **R$ " ++ decRepr gasto.valor_bi ++ " Bilhões**.", t)
  else if pergunta = "Qual o principal credor da Dívida Pública?" then
    match topDetentor t.df_detentores with
    | none => (respostaErro msgArgmaxVazio, t)
    | some credor =>
      ("O principal credor da Dívida Pública são os **" ++ credor.credor
        ++ "**, detendo **" ++ decRepr credor.porcentagem ++ "%** do total.", t)
  else if pergunta = "Qual foi o ano com o maior estoque da Dívida?" then
    match anoMaxEstoque t.df_evolucao with
    | none => (respostaErro msgArgmaxVazio, t)
    | some r =>
      ("O ano com o maior estoque da Dívida Pública no período foi **"
        ++ intStr r.ano ++ "**, atingindo **R$ "
        ++ decRepr r.valor_trilhoes ++ " Trilhões**.", t)
  else if pergunta = "Qual foi o ano com o menor estoque da Dívida?" then
    match anoMinEstoque t.df_evolucao with
    | none => (respostaErro msgArgminVazio, t)
    | some r =>
      ("O ano com o menor estoque da Dívida Pública no período foi **"
        ++ intStr r.ano ++ "**, com **R$ "
        ++ decRepr r.valor_trilhoes ++ " Trilhões**.", t)
  else
    ("Selecione uma pergunta.", t)

/-! Helper lemmas about the printing primitives. -/

theorem natCharsAux_mem :
    ∀ (fuel n : ℕ), ∀ c ∈ natCharsAux fuel n, ∃ d, d < 10 ∧ c = Nat.digitChar d := by
  intro fuel
  induction fuel with
  | zero => intro n c hc; simp [natCharsAux] at hc
  | succ f ih =>
    intro n c hc
    rw [natCharsAux] at hc
    split at hc
    · simp at hc
      exact ⟨n, by omega, hc⟩
    · rcases List.mem_append.1 hc with h | h
      · exact ih _ c h
      · simp at h
        exact ⟨n % 10, Nat.mod_lt _ (by omega), h⟩

theorem natChars_mem (n : ℕ) : ∀ c ∈ natChars n, ∃ d, d < 10 ∧ c = Nat.digitChar d :=
  natCharsAux_mem (n + 1) n

theorem digitChar_ne_hash : ∀ d : ℕ, d < 10 → Nat.digitChar d ≠ '#' := by decide

theorem digitChar_ne_dot : ∀ d : ℕ, d < 10 → (Nat.digitChar d != '.') = true := by decide

theorem natChars_no_hash (n : ℕ) : '#' ∉ natChars n := by
  intro h
  obtain ⟨d, hd, hc⟩ := natChars_mem n _ h
  exact digitChar_ne_hash d hd hc.symm

theorem natChars_single {n : ℕ} (h : n < 10) : natChars n = [Nat.digitChar n] := by
  simp [natChars, natCharsAux, h]

theorem decReprChars_no_hash (q : ℚ) : '#' ∉ decReprChars q := by
  intro h
  simp only [decReprChars, List.mem_append, List.mem_cons, List.mem_replicate] at h
  rcases h with (h | h) | h
  · split at h <;> simp_all
  · exact natChars_no_hash _ h
  · rcases h with h | h
    · simp at h
    · rcases h with ⟨-, h⟩ | h
      · simp at h
      · exact natChars_no_hash _ h

theorem format1Chars_no_hash (q : ℚ) : '#' ∉ format1Chars q := by
  intro h
  simp only [format1Chars, List.mem_append, List.mem_cons] at h
  rcases h with (h | h) | h | h
  · split at h <;> simp_all
  · exact natChars_no_hash _ h
  · simp at h
  · exact natChars_no_hash _ h

theorem intStr_no_hash (z : Int) : '#' ∉ (intStr z).data := by
  intro h
  rw [intStr] at h
  split at h
  · rcases List.mem_cons.1 h with h | h
    · simp at h
    · exact natChars_no_hash _ h
  · exact natChars_no_hash _ h

theorem fracDigits_format1 (q : ℚ) : fracDigits (format1 q) = 1 := by
  have hlt : (roundHalfEven (q * 10)).natAbs % 10 < 10 := Nat.mod_lt _ (by omega)
  simp [fracDigits, format1, format1Chars, natChars_single hlt, List.reverse_append,
    List.takeWhile_cons, digitChar_ne_dot _ hlt]

theorem decExp_eq_one {q : ℚ} (h : (q * 10).den = 1) : decExp q = 1 := by
  have h1 : List.find? (fun k => (q * 10 ^ (k + 1)).den == 1)
      (0 :: List.map Nat.succ (List.range 16)) = some 0 :=
    List.find?_cons_of_pos _ (by simp [pow_one, h])
  rw [decExp, show (17 : ℕ) = 16 + 1 from rfl, List.range_succ_eq_map, h1]

theorem fracDigits_decRepr {q : ℚ} (h : (q * 10).den = 1) : fracDigits (decRepr q) = 1 := by
  have he : decExp q = 1 := decExp_eq_one h
  have hlt : (q * 10).num.natAbs % 10 < 10 := Nat.mod_lt _ (by omega)
  simp [fracDigits, decRepr, decReprChars, he, pow_one, natChars_single hlt,
    List.reverse_append, List.takeWhile_cons, digitChar_ne_dot _ hlt]

/-! Helper lemmas about the extremum primitives. -/

theorem argmaxFirst_spec (key : α → ℚ) :
    ∀ l : List α, l ≠ [] →
      ∃ a l1 l2, argmaxFirst key l = some a ∧ l = l1 ++ a :: l2
        ∧ (∀ x ∈ l1, key x < key a) ∧ (∀ x ∈ l, key x ≤ key a) := by
  intro l
  induction l with
  | nil => intro h; exact absurd rfl h
  | cons x xs ih =>
    intro _hne
    cases xs with
    | nil => exact ⟨x, [], [], by simp [argmaxFirst], by simp, by simp, by simp⟩
    | cons y ys =>
      obtain ⟨a, l1, l2, ha, hdec, hlt, hle⟩ := ih (by simp)
      by_cases hx : key x < key a
      · refine ⟨a, x :: l1, l2, ?_, by simp [hdec], ?_, ?_⟩
        · show (match argmaxFirst key (y :: ys) with
              | none => some x
              | some z => if key x < key z then some z else some x) = some a
          rw [ha]
          exact if_pos hx
        · intro z hz
          rcases List.mem_cons.1 hz with h | h
          · rw [h]; exact hx
          · exact hlt z h
        · intro z hz
          rcases List.mem_cons.1 hz with h | h
          · rw [h]; exact le_of_lt hx
          · exact hle z h
      · refine ⟨x, [], y :: ys, ?_, by simp, by simp, ?_⟩
        · show (match argmaxFirst key (y :: ys) with
              | none => some x
              | some z => if key x < key z then some z else some x) = some x
          rw [ha]
          exact if_neg hx
        · intro z hz
          rcases List.mem_cons.1 hz with h | h
          · rw [h]
          · exact le_trans (hle z h) (not_lt.1 hx)

theorem argminFirst_spec (key : α → ℚ) :
    ∀ l : List α, l ≠ [] →
      ∃ a l1 l2, argminFirst key l = some a ∧ l = l1 ++ a :: l2
        ∧ (∀ x ∈ l1, key a < key x) ∧ (∀ x ∈ l, key a ≤ key x) := by
  intro l
  induction l with
  | nil => intro h; exact absurd rfl h
  | cons x xs ih =>
    intro _hne
    cases xs with
    | nil => exact ⟨x, [], [], by simp [argminFirst], by simp, by simp, by simp⟩
    | cons y ys =>
      obtain ⟨a, l1, l2, ha, hdec, hlt, hle⟩ := ih (by simp)
      by_cases hx : key a < key x
      · refine ⟨a, x :: l1, l2, ?_, by simp [hdec], ?_, ?_⟩
        · show (match argminFirst key (y :: ys) with
              | none => some x
              | some z => if key z < key x then some z else some x) = some a
          rw [ha]
          exact if_pos hx
        · intro z hz
          rcases List.mem_cons.1 hz with h | h
          · rw [h]; exact hx
          · exact hlt z h
        · intro z hz
          rcases List.mem_cons.1 hz with h | h
          · rw [h]; exact le_of_lt hx
          · exact hle z h
      · refine ⟨x, [], y :: ys, ?_, by simp, by simp, ?_⟩
        · show (match argminFirst key (y :: ys) with
              | none => some x
              | some z => if key z < key x then some z else some x) = some x
          rw [ha]
          exact if_neg hx
        · intro z hz
          rcases List.mem_cons.1 hz with h | h
          · rw [h]
          · exact le_trans (not_lt.1 hx) (hle z h)

theorem argmaxFirst_mem {key : α → ℚ} {l : List α} {a : α}
    (h : argmaxFirst key l = some a) : a ∈ l := by
  cases l with
  | nil => simp [argmaxFirst] at h
  | cons x xs =>
    obtain ⟨b, l1, l2, hb, hdec, -, -⟩ := argmaxFirst_spec key (x :: xs) (by simp)
    rw [h] at hb
    rw [hdec, Option.some.inj hb]
    simp

theorem argminFirst_mem {key : α → ℚ} {l : List α} {a : α}
    (h : argminFirst key l = some a) : a ∈ l := by
  cases l with
  | nil => simp [argminFirst] at h
  | cons x xs =>
    obtain ⟨b, l1, l2, hb, hdec, -, -⟩ := argminFirst_spec key (x :: xs) (by simp)
    rw [h] at hb
    rw [hdec, Option.some.inj hb]
    simp

/-! Helper lemmas about the sort model. -/

theorem sortDescBy_pairwise (key : α → ℚ) (l : List α) :
    (sortDescBy key l).Pairwise (fun x y => key y ≤ key x) :=
  List.sorted_insertionSort (byKeyGE key) l

theorem sortDescBy_perm (key : α → ℚ) (l : List α) : List.Perm (sortDescBy key l) l :=
  List.perm_insertionSort (byKeyGE key) l

theorem filter_sortDescBy (key : α → ℚ) (v : ℚ) (l : List α) :
    (sortDescBy key l).filter (fun x => key x == v)
      = l.filter (fun x => key x == v) := by
  have hall : ∀ x ∈ l.filter (fun x => key x == v), key x = v := by
    intro x hx
    simpa using (List.mem_filter.1 hx).2
  have hpair : (l.filter (fun x => key x == v)).Pairwise (byKeyGE key) :=
    List.pairwise_of_forall_mem_list (fun a ha b hb => by
      show key b ≤ key a
      rw [hall a ha, hall b hb])
  have hsub : List.Sublist (l.filter (fun x => key x == v)) (sortDescBy key l) :=
    List.sublist_insertionSort hpair (List.filter_sublist l)
  have hsub2 : List.Sublist (l.filter (fun x => key x == v))
      ((sortDescBy key l).filter (fun x => key x == v)) := by
    have h2 := List.Sublist.filter (fun x => key x == v) hsub
    rw [List.filter_filter] at h2
    simpa using h2
  have hlen : ((sortDescBy key l).filter (fun x => key x == v)).length
      = (l.filter (fun x => key x == v)).length :=
    ((sortDescBy_perm key l).filter _).length_eq
  exact (hsub2.eq_of_length hlen.symm).symm

/-! Helper lemmas about sums of shares and listing bodies. -/

theorem sum_map_div_mul (T : ℚ) (l : List ℚ) :
    (l.map (fun v => v / T * 100)).sum = l.sum / T * 100 := by
  induction l with
  | nil => simp
  | cons x xs ih => simp [ih, add_div, add_mul]

theorem foldl_append_data (f : α → String) :
    ∀ (l : List α) (acc : String),
      ∃ t, (l.foldl (fun a x => a ++ f x) acc).data = acc.data ++ t := by
  intro l
  induction l with
  | nil => intro acc; exact ⟨[], by simp⟩
  | cons x xs ih =>
    intro acc
    obtain ⟨t, ht⟩ := ih (acc ++ f x)
    refine ⟨(f x).data ++ t, ?_⟩
    simp only [List.foldl_cons, ht, String.data_append, List.append_assoc]

/-! Claim theorems. -/

/-- C1: for every question string (in the catalog or not) and any loaded
tables, `responder_pergunta` returns a string: either the `try` body's
answer, or — when the body raises — the generic caught-error answer
`"Ocorreu um erro ao processar sua pergunta: ..."`.  No fault propagates
past the engine boundary. -/
theorem responder_pergunta_total_e_captura
    (pergunta : String) (evol : List EvolucaoRec) (det : List DetentorRec)
    (gastos : List GastoRec) :
    (∃ s, responderCore pergunta evol det gastos = Except.ok s
      ∧ responder_pergunta pergunta evol det gastos = s)
    ∨ (∃ m, responderCore pergunta evol det gastos = Except.error m
      ∧ responder_pergunta pergunta evol det gastos = respostaErro m) := by
  cases h : responderCore pergunta evol det gastos with
  | ok s => exact Or.inl ⟨s, rfl, by simp [responder_pergunta, h]⟩
  | error m => exact Or.inr ⟨m, rfl, by simp [responder_pergunta, h]⟩

/-- C6: a question outside the closed catalog falls through the dispatch
chain and yields the guidance answer `"Selecione uma pergunta."` — not an
exception and not a data answer. -/
theorem pergunta_desconhecida_orientacao
    (pergunta : String) (evol : List EvolucaoRec) (det : List DetentorRec)
    (gastos : List GastoRec) (h : pergunta ∉ perguntasCatalogo) :
    responder_pergunta pergunta evol det gastos = "Selecione uma pergunta." := by
  simp only [perguntasCatalogo, List.mem_cons, List.not_mem_nil, or_false, not_or] at h
  obtain ⟨h1, h2, h3, h4, h5, h6, h7, h8, h9⟩ := h
  simp [responder_pergunta, responderCore, h1, h2, h3, h4, h5, h6, h7, h8, h9]

/-- Witness for C6 at the spec's concrete example question. -/
theorem pergunta_desconhecida_orientacao_wit :
    ("Qual a capital da França?" ∉ perguntasCatalogo)
    ∧ responder_pergunta ("Qual a capital da França?") [] [] []
        = "Selecione uma pergunta." :=
  ⟨by decide, pergunta_desconhecida_orientacao _ [] [] [] (by decide)⟩

/-- C8: `carregar_dataframes` is all-or-nothing — either it returns the
`(None, None, None)` failure triple, or all three sources parsed and it
returns exactly their three tables; no partial table set is possible. -/
theorem carregar_tudo_ou_nada (fe : Fonte EvolucaoRec) (fd : Fonte DetentorRec)
    (fg : Fonte GastoRec) :
    carregar_dataframes fe fd fg = (none, none, none)
    ∨ ∃ le ld lg, fe = Fonte.dados le ∧ fd = Fonte.dados ld ∧ fg = Fonte.dados lg
        ∧ carregar_dataframes fe fd fg = (some le, some ld, some lg) := by
  by_cases h : (pdTruthy (carregar_dados_json fe) && pdTruthy (carregar_dados_json fd)
      && pdTruthy (carregar_dados_json fg)) = true
  · right
    rw [Bool.and_eq_true, Bool.and_eq_true] at h
    obtain ⟨⟨h1, h2⟩, h3⟩ := h
    rcases fe with _ | _ | le <;> simp [carregar_dados_json, pdTruthy] at h1
    rcases fd with _ | _ | ld <;> simp [carregar_dados_json, pdTruthy] at h2
    rcases fg with _ | _ | lg <;> simp [carregar_dados_json, pdTruthy] at h3
    exact ⟨le, ld, lg, rfl, rfl, rfl, by
      simp [carregar_dataframes, carregar_dados_json, pdTruthy, h1, h2, h3]⟩
  · left
    simp only [carregar_dataframes]
    rw [if_neg h]

/-- C9: the engine leaves the three loaded tables untouched: in the
store-passing view every branch hands the store back unchanged, and the
answer it computes agrees with the pure `responder_pergunta`. -/
theorem responder_nao_altera_tabelas (pergunta : String) (t : Tabelas) :
    (responderSt pergunta t).2 = t
    ∧ (responderSt pergunta t).1
        = responder_pergunta pergunta t.df_evolucao t.df_detentores t.df_gastos := by
  constructor
  · unfold responderSt
    repeat' split <;> try rfl
  · unfold responderSt responder_pergunta responderCore
    by_cases h1 : pergunta = "Listar todos os gastos de 2024 (do maior para o menor)"
    · subst h1; rfl
    by_cases h2 : pergunta = "Listar todos os gastos de 2018 (do maior para o menor)"
    · subst h2; rfl
    by_cases h3 : pergunta = "Listar todos os credores da Dívida (do maior para o menor)"
    · subst h3; rfl
    by_cases h4 : pergunta = "Qual foi o maior gasto em 2018?"
    · subst h4; cases maxGasto2018 t.df_gastos <;> rfl
    by_cases h5 : pergunta = "Qual foi o menor gasto em 2018?"
    · subst h5; cases minGasto2018 t.df_gastos <;> rfl
    by_cases h6 : pergunta = "Qual foi o maior gasto em 2024?"
    · subst h6; cases maxGasto2024 t.df_gastos <;> rfl
    by_cases h7 : pergunta = "Qual o principal credor da Dívida Pública?"
    · subst h7; cases topDetentor t.df_detentores <;> rfl
    by_cases h8 : pergunta = "Qual foi o ano com o maior estoque da Dívida?"
    · subst h8; cases anoMaxEstoque t.df_evolucao <;> rfl
    by_cases h9 : pergunta = "Qual foi o ano com o menor estoque da Dívida?"
    · subst h9; cases anoMinEstoque t.df_evolucao <;> rfl
    simp only [if_neg h1, if_neg h2, if_neg h3, if_neg h4, if_neg h5, if_neg h6,
      if_neg h7, if_neg h8, if_neg h9]

/-- C2 counterexample: with a spending table holding only 2018 records, the
2024 queries do not produce a "no data for 2024" result: the listing
returns the bare markdown header with zero items, and the direct maximum
question returns the generic caught-error answer wrapping the `idxmax`
`ValueError` — an arithmetic-style error report, contradicting the claim. -/
theorem fatia_vazia_nao_informa_sem_dados :
    responder_pergunta ("Listar todos os gastos de 2024 (do maior para o menor)")
        [] [] [⟨"Saúde", 2018, 120⟩]
      = "### Gastos de 2024 (do maior para o menor):\n\n"
    ∧ responder_pergunta ("Qual foi o maior gasto em 2024?") [] [] [⟨"Saúde", 2018, 120⟩]
      = "Ocorreu um erro ao processar sua pergunta: attempt to get argmax of an empty sequence" := by
  exact ⟨by decide, by decide⟩

/-- C2 (amended): on an empty year slice the engine does not raise and no
arithmetic fault occurs, but instead of a "no data" message the listing
questions return the bare header with zero bullet lines and the direct
maximum/minimum questions return the generic caught-error answer wrapping
the `idxmax`/`idxmin` `ValueError`. -/
theorem fatia_vazia_cabecalho_e_erro_generico
    (evol : List EvolucaoRec) (det : List DetentorRec) (g : List GastoRec)
    (h24 : filterAno 2024 g = []) (h18 : filterAno 2018 g = []) :
    responder_pergunta ("Listar todos os gastos de 2024 (do maior para o menor)") evol det g
      = "### Gastos de 2024 (do maior para o menor):\n\n"
    ∧ responder_pergunta ("Qual foi o maior gasto em 2024?") evol det g
      = respostaErro msgArgmaxVazio
    ∧ responder_pergunta ("Listar todos os gastos de 2018 (do maior para o menor)") evol det g
      = "### Gastos de 2018 (do maior para o menor):\n\n"
    ∧ responder_pergunta ("Qual foi o menor gasto em 2018?") evol det g
      = respostaErro msgArgminVazio := by
  refine ⟨?_, ?_, ?_, ?_⟩
  · simp [responder_pergunta, responderCore, respListaGastos, listaGastosAno,
      gastosComPct, h24, sortDescBy, List.insertionSort]
  · simp [responder_pergunta, responderCore, maxGasto2024, h24, argmaxFirst]
  · simp [responder_pergunta, responderCore, respListaGastos, listaGastosAno,
      gastosComPct, h18, sortDescBy, List.insertionSort]
  · simp [responder_pergunta, responderCore, minGasto2018, h18, argminFirst]

/-- Witness for C2 (amended) at a concrete 2018-only spending table. -/
theorem fatia_vazia_cabecalho_e_erro_generico_wit :
    (filterAno 2024 [(⟨"Previdência", 2019, 80⟩ : GastoRec)] = []
      ∧ filterAno 2018 [(⟨"Previdência", 2019, 80⟩ : GastoRec)] = [])
    ∧ (responder_pergunta ("Listar todos os gastos de 2024 (do maior para o menor)")
          [] [] [⟨"Previdência", 2019, 80⟩]
        = "### Gastos de 2024 (do maior para o menor):\n\n"
      ∧ responder_pergunta ("Qual foi o maior gasto em 2024?") [] [] [⟨"Previdência", 2019, 80⟩]
        = respostaErro msgArgmaxVazio
      ∧ responder_pergunta ("Listar todos os gastos de 2018 (do maior para o menor)")
          [] [] [⟨"Previdência", 2019, 80⟩]
        = "### Gastos de 2018 (do maior para o menor):\n\n"
      ∧ responder_pergunta ("Qual foi o menor gasto em 2018?") [] [] [⟨"Previdência", 2019, 80⟩]
        = respostaErro msgArgminVazio) :=
  ⟨⟨by decide, by decide⟩,
    fatia_vazia_cabecalho_e_erro_generico [] [] _ (by decide) (by decide)⟩

unseal Rat.mul Rat.add Rat.sub Rat.inv Rat.ofScientific in
/-- C3 counterexample: a non-empty 2024 slice whose only record has value 0
makes the slice total 0; the computed shares then do not sum to 100 (the
exact-arithmetic model yields 0 where pandas float division yields NaN —
under neither semantics is the sum 100). -/
theorem percentuais_total_zero_nao_somam_100 :
    filterAno 2024 [(⟨"Saúde", 2024, 0⟩ : GastoRec)] ≠ []
    ∧ ((listaGastosAno 2024 [(⟨"Saúde", 2024, 0⟩ : GastoRec)]).map
        (fun p => p.2)).sum ≠ 100 := by
  exact ⟨by decide, by decide⟩

/-- C3 (amended): whenever the year slice's total is nonzero, the shares
attached by the listing computation sum to exactly 100 (exact arithmetic),
and the listing depends only on the requested year's slice — records of the
other year cannot influence it. -/
theorem percentuais_somam_100_e_localidade
    (a : Int) (g : List GastoRec) (h : somaValorBi (filterAno a g) ≠ 0) :
    ((listaGastosAno a g).map (fun p => p.2)).sum = 100
    ∧ ∀ g' : List GastoRec, filterAno a g' = filterAno a g →
        listaGastosAno a g' = listaGastosAno a g := by
  constructor
  · show (List.map (fun p => p.2) (sortDescBy (fun p => p.2) (gastosComPct a g))).sum = 100
    rw [List.Perm.sum_eq ((sortDescBy_perm (fun p => p.2) (gastosComPct a g)).map
      (fun p => p.2))]
    show (((filterAno a g).map
        (fun r => (r, r.valor_bi / somaValorBi (filterAno a g) * 100))).map
          (fun p => p.2)).sum = 100
    rw [List.map_map]
    show (((filterAno a g).map
        (fun r => r.valor_bi / somaValorBi (filterAno a g) * 100))).sum = 100
    rw [show ((fun r : GastoRec => r.valor_bi / somaValorBi (filterAno a g) * 100))
        = (fun v => v / somaValorBi (filterAno a g) * 100) ∘ (fun r => r.valor_bi)
      from rfl, ← List.map_map, sum_map_div_mul]
    show somaValorBi (filterAno a g) / somaValorBi (filterAno a g) * 100 = 100
    rw [div_self h, one_mul]
  · intro g' hg'
    simp only [listaGastosAno, gastosComPct, hg']

unseal Rat.mul Rat.add Rat.sub Rat.inv Rat.ofScientific in
/-- Witness for C3 (amended) at a concrete two-record 2024 slice. -/
theorem percentuais_somam_100_e_localidade_wit :
    somaValorBi (filterAno 2024 [⟨"Saúde", 2024, 120⟩, ⟨"Defesa", 2024, 80⟩]) ≠ 0
    ∧ (((listaGastosAno 2024 [⟨"Saúde", 2024, 120⟩, ⟨"Defesa", 2024, 80⟩]).map
          (fun p => p.2)).sum = 100
      ∧ ∀ g' : List GastoRec,
          filterAno 2024 g' = filterAno 2024 [⟨"Saúde", 2024, 120⟩, ⟨"Defesa", 2024, 80⟩] →
            listaGastosAno 2024 g' = listaGastosAno 2024 [⟨"Saúde", 2024, 120⟩, ⟨"Defesa", 2024, 80⟩]) :=
  ⟨by decide, percentuais_somam_100_e_localidade 2024 _ (by decide)⟩

/-- C4: every argmax/argmin query of the catalog returns a record of the
relevant slice whose key is maximal (resp. minimal) there, and when several
records tie for the extremum the one earliest in input order is returned:
the slice decomposes as `l1 ++ r :: l2` with every record before `r`
strictly below (resp. above) the extremum. -/
theorem extremos_corretos_e_primeiro_empate
    (evol : List EvolucaoRec) (det : List DetentorRec) (g : List GastoRec)
    (h18 : filterAno 2018 g ≠ []) (h24 : filterAno 2024 g ≠ [])
    (hdet : det ≠ []) (hev : evol ≠ []) :
    (∃ r l1 l2, maxGasto2018 g = some r ∧ filterAno 2018 g = l1 ++ r :: l2
      ∧ (∀ x ∈ l1, x.valor_bi < r.valor_bi)
      ∧ (∀ x ∈ filterAno 2018 g, x.valor_bi ≤ r.valor_bi))
    ∧ (∃ r l1 l2, minGasto2018 g = some r ∧ filterAno 2018 g = l1 ++ r :: l2
      ∧ (∀ x ∈ l1, r.valor_bi < x.valor_bi)
      ∧ (∀ x ∈ filterAno 2018 g, r.valor_bi ≤ x.valor_bi))
    ∧ (∃ r l1 l2, maxGasto2024 g = some r ∧ filterAno 2024 g = l1 ++ r :: l2
      ∧ (∀ x ∈ l1, x.valor_bi < r.valor_bi)
      ∧ (∀ x ∈ filterAno 2024 g, x.valor_bi ≤ r.valor_bi))
    ∧ (∃ r l1 l2, topDetentor det = some r ∧ det = l1 ++ r :: l2
      ∧ (∀ x ∈ l1, x.porcentagem < r.porcentagem)
      ∧ (∀ x ∈ det, x.porcentagem ≤ r.porcentagem))
    ∧ (∃ r l1 l2, anoMaxEstoque evol = some r ∧ evol = l1 ++ r :: l2
      ∧ (∀ x ∈ l1, x.valor_trilhoes < r.valor_trilhoes)
      ∧ (∀ x ∈ evol, x.valor_trilhoes ≤ r.valor_trilhoes))
    ∧ (∃ r l1 l2, anoMinEstoque evol = some r ∧ evol = l1 ++ r :: l2
      ∧ (∀ x ∈ l1, r.valor_trilhoes < x.valor_trilhoes)
      ∧ (∀ x ∈ evol, r.valor_trilhoes ≤ x.valor_trilhoes)) :=
  ⟨argmaxFirst_spec _ _ h18, argminFirst_spec _ _ h18, argmaxFirst_spec _ _ h24,
    argmaxFirst_spec _ _ hdet, argmaxFirst_spec _ _ hev, argminFirst_spec _ _ hev⟩

unseal Rat.ofScientific in
/-- Witness for C4 at concrete tables, including the spec's tie scenario:
two 2018 records tied at the maximum value, of which the first-listed one
is returned. -/
theorem extremos_corretos_e_primeiro_empate_wit :
    (filterAno 2018 [⟨"A", 2018, 10⟩, ⟨"B", 2018, 10⟩, ⟨"C", 2024, 5⟩] ≠ []
      ∧ filterAno 2024 [⟨"A", 2018, 10⟩, ⟨"B", 2018, 10⟩, ⟨"C", 2024, 5⟩] ≠ []
      ∧ [(⟨"X", 26.1⟩ : DetentorRec)] ≠ []
      ∧ [(⟨2018, 5.2⟩ : EvolucaoRec), ⟨2024, 7.8⟩] ≠ [])
    ∧ maxGasto2018 [⟨"A", 2018, 10⟩, ⟨"B", 2018, 10⟩, ⟨"C", 2024, 5⟩]
        = some ⟨"A", 2018, 10⟩
    ∧ (∃ r l1 l2, maxGasto2018 [⟨"A", 2018, 10⟩, ⟨"B", 2018, 10⟩, ⟨"C", 2024, 5⟩] = some r
        ∧ filterAno 2018 [⟨"A", 2018, 10⟩, ⟨"B", 2018, 10⟩, ⟨"C", 2024, 5⟩] = l1 ++ r :: l2
        ∧ (∀ x ∈ l1, x.valor_bi < r.valor_bi)
        ∧ (∀ x ∈ filterAno 2018 [⟨"A", 2018, 10⟩, ⟨"B", 2018, 10⟩, ⟨"C", 2024, 5⟩],
            x.valor_bi ≤ r.valor_bi)) :=
  ⟨⟨by decide, by decide, by decide, by decide⟩, by decide,
    (extremos_corretos_e_primeiro_empate [⟨2018, 5.2⟩, ⟨2024, 7.8⟩] [⟨"X", 26.1⟩]
      [⟨"A", 2018, 10⟩, ⟨"B", 2018, 10⟩, ⟨"C", 2024, 5⟩]
      (by decide) (by decide) (by decide) (by decide)).1⟩

/-- C5: both listing queries are sorted descending by their sort key (the
computed share for spending, `porcentagem` for holders), and records with
equal keys keep their original relative input order: filtering the output
at any key value returns exactly the input-order sublist at that value. -/
theorem listagens_ordenadas_e_estaveis
    (a : Int) (g : List GastoRec) (d : List DetentorRec) :
    ((listaGastosAno a g).Pairwise (fun x y => y.2 ≤ x.2))
    ∧ (∀ v : ℚ, (listaGastosAno a g).filter (fun p => p.2 == v)
        = (gastosComPct a g).filter (fun p => p.2 == v))
    ∧ ((listaDetentores d).Pairwise (fun x y => y.porcentagem ≤ x.porcentagem))
    ∧ (∀ v : ℚ, (listaDetentores d).filter (fun r => r.porcentagem == v)
        = d.filter (fun r => r.porcentagem == v)) :=
  ⟨sortDescBy_pairwise _ _, fun v => filter_sortDescBy _ v _,
    sortDescBy_pairwise _ _, fun v => filter_sortDescBy _ v _⟩

unseal Rat.mul Rat.add Rat.sub Rat.inv Rat.ofScientific in
/-- C7 counterexample: the direct answers interpolate the raw cell value
(Python `str`), not a one-decimal format: with a stored value of 5.25 the
answer embeds `5.25` — two fractional digits — and differs from what the
`:.1f` formatting used by the listings would produce. -/
theorem resposta_direta_mostra_duas_casas :
    responder_pergunta ("Qual foi o maior gasto em 2018?") [] [] [⟨"Saúde", 2018, 5.25⟩]
      = "O maior gasto em 2018 foi com **Saúde**, no valor de **R$ 5.25 Bilhões**."
    ∧ fracDigits (decRepr (5.25 : ℚ)) = 2
    ∧ decRepr (5.25 : ℚ) ≠ format1 (5.25 : ℚ) :=
  ⟨by decide, by decide, by decide⟩

/-- C7 (amended): the listing answers' `:.1f` fields always render exactly
one fractional digit; the direct single-fact answers interpolate the raw
stored value via Python `str` — the direct answer embeds `str(value)`
verbatim, which renders one fractional digit only when the stored value has
at most one decimal place. -/
theorem formatacao_listagens_uma_casa_diretas_str :
    (∀ q : ℚ, fracDigits (format1 q) = 1)
    ∧ (∀ q : ℚ, (q * 10).den = 1 → fracDigits (decRepr q) = 1)
    ∧ (∀ (evol : List EvolucaoRec) (det : List DetentorRec) (g : List GastoRec)
        (r : GastoRec), maxGasto2018 g = some r →
          responder_pergunta ("Qual foi o maior gasto em 2018?") evol det g
            = "O maior gasto em 2018 foi com **" ++ r.funcao
              ++ "**, no valor de **R$ " ++ decRepr r.valor_bi ++ " Bilhões**.") := by
  refine ⟨fracDigits_format1, fun _q h => fracDigits_decRepr h, ?_⟩
  intro evol det g r hr
  simp [responder_pergunta, responderCore, hr]

unseal Rat.mul Rat.add Rat.sub Rat.inv Rat.ofScientific in
/-- Witness for C7 (amended): the `:.1f` field of 5.25 has one fractional
digit, `str` of the one-decimal value 7.8 has one fractional digit, and the
direct answer over a concrete table embeds `str` of the stored value. -/
theorem formatacao_listagens_uma_casa_diretas_str_wit :
    fracDigits (format1 (5.25 : ℚ)) = 1
    ∧ (((7.8 : ℚ) * 10).den = 1 ∧ fracDigits (decRepr (7.8 : ℚ)) = 1)
    ∧ (maxGasto2018 [⟨"Educação", 2018, 7.8⟩] = some ⟨"Educação", 2018, 7.8⟩
      ∧ responder_pergunta ("Qual foi o maior gasto em 2018?") [] [] [⟨"Educação", 2018, 7.8⟩]
          = "O maior gasto em 2018 foi com **" ++ (⟨"Educação", 2018, 7.8⟩ : GastoRec).funcao
            ++ "**, no valor de **R$ " ++ decRepr (⟨"Educação", 2018, 7.8⟩ : GastoRec).valor_bi
            ++ " Bilhões**.") := by
  refine ⟨formatacao_listagens_uma_casa_diretas_str.1 (5.25 : ℚ),
    ⟨by decide, formatacao_listagens_uma_casa_diretas_str.2.1 (7.8 : ℚ) (by decide)⟩,
    by decide,
    formatacao_listagens_uma_casa_diretas_str.2.2 [] [] [⟨"Educação", 2018, 7.8⟩]
      ⟨"Educação", 2018, 7.8⟩ (by decide)⟩

theorem not_infix_hash_of_not_mem {l : List Char} (h : '#' ∉ l) :
    ¬ List.IsInfix ['#', '#', '#'] l := by
  rintro ⟨s, t, hst⟩
  apply h
  rw [← hst]
  simp

theorem infix_hash_foldl (f : α → String) (l : List α) (cab : String)
    (h : List.take 3 cab.data = ['#', '#', '#']) :
    List.IsInfix ['#', '#', '#'] ((l.foldl (fun a x => a ++ f x) cab).data) := by
  obtain ⟨t, ht⟩ := foldl_append_data f l cab
  refine ⟨[], List.drop 3 cab.data ++ t, ?_⟩
  rw [List.nil_append, ht, ← h, ← List.append_assoc, List.take_append_drop]

/-- C10 (amended): provided no spending-function label and no creditor
label contains the character `'#'`, the answer of `responder_pergunta`
contains the substring `"###"` exactly when the question is one of the
three listing questions — direct answers, the unknown-question guidance and
the caught-error answers never do.  (Without that proviso the claim fails:
a label containing `'#'` leaks into a direct answer, see the
counterexample.) -/
theorem marcador_lista_discrimina_listagens
    (evol : List EvolucaoRec) (det : List DetentorRec) (g : List GastoRec)
    (hg : ∀ r ∈ g, '#' ∉ r.funcao.data) (hd : ∀ r ∈ det, '#' ∉ r.credor.data)
    (pergunta : String) :
    List.IsInfix ['#', '#', '#'] ((responder_pergunta pergunta evol det g).data)
      ↔ pergunta ∈ perguntasListagem := by
  by_cases h1 : pergunta = "Listar todos os gastos de 2024 (do maior para o menor)"
  · subst h1
    refine iff_of_true ?_ (by decide)
    have hresp : responder_pergunta
        ("Listar todos os gastos de 2024 (do maior para o menor)") evol det g
        = respListaGastos ("### Gastos de 2024 (do maior para o menor):\n\n") 2024 g := by
      simp [responder_pergunta, responderCore]
    rw [hresp]
    exact infix_hash_foldl linhaGasto (listaGastosAno 2024 g) _ (by decide)
  by_cases h2 : pergunta = "Listar todos os gastos de 2018 (do maior para o menor)"
  · subst h2
    refine iff_of_true ?_ (by decide)
    have hresp : responder_pergunta
        ("Listar todos os gastos de 2018 (do maior para o menor)") evol det g
        = respListaGastos ("### Gastos de 2018 (do maior para o menor):\n\n") 2018 g := by
      simp [responder_pergunta, responderCore]
    rw [hresp]
    exact infix_hash_foldl linhaGasto (listaGastosAno 2018 g) _ (by decide)
  by_cases h3 : pergunta = "Listar todos os credores da Dívida (do maior para o menor)"
  · subst h3
    refine iff_of_true ?_ (by decide)
    have hresp : responder_pergunta
        ("Listar todos os credores da Dívida (do maior para o menor)") evol det g
        = respListaDetentores det := by
      simp [responder_pergunta, responderCore]
    rw [hresp]
    exact infix_hash_foldl linhaDetentor (listaDetentores det) _ (by decide)
  by_cases h4 : pergunta = "Qual foi o maior gasto em 2018?"
  · subst h4
    refine iff_of_false ?_ (by decide)
    cases hx : maxGasto2018 g with
    | none =>
      have hresp : responder_pergunta ("Qual foi o maior gasto em 2018?") evol det g
          = respostaErro msgArgmaxVazio := by
        simp [responder_pergunta, responderCore, hx]
      rw [hresp]
      exact not_infix_hash_of_not_mem (by decide)
    | some r =>
      have hresp : responder_pergunta ("Qual foi o maior gasto em 2018?") evol det g
          = "O maior gasto em 2018 foi com **" ++ r.funcao
            ++ "**, no valor de **R$ " ++ decRepr r.valor_bi ++ " Bilhões**." := by
        simp [responder_pergunta, responderCore, hx]
      rw [hresp]
      apply not_infix_hash_of_not_mem
      intro hm
      have hrg : r ∈ g := List.mem_of_mem_filter (argmaxFirst_mem hx)
      simp only [String.data_append, List.mem_append] at hm
      rcases hm with (((hm | hm) | hm) | hm) | hm
      · exact absurd hm (by decide)
      · exact hg r hrg hm
      · exact absurd hm (by decide)
      · exact decReprChars_no_hash _ hm
      · exact absurd hm (by decide)
  by_cases h5 : pergunta = "Qual foi o menor gasto em 2018?"
  · subst h5
    refine iff_of_false ?_ (by decide)
    cases hx : minGasto2018 g with
    | none =>
      have hresp : responder_pergunta ("Qual foi o menor gasto em 2018?") evol det g
          = respostaErro msgArgminVazio := by
        simp [responder_pergunta, responderCore, hx]
      rw [hresp]
      exact not_infix_hash_of_not_mem (by decide)
    | some r =>
      have hresp : responder_pergunta ("Qual foi o menor gasto em 2018?") evol det g
          = "O menor gasto em 2018 (entre os principais listados) foi com **"
            ++ r.funcao ++ "**, no valor de **R$ "
            ++ decRepr r.valor_bi ++ " Bilhões**." := by
        simp [responder_pergunta, responderCore, hx]
      rw [hresp]
      apply not_infix_hash_of_not_mem
      intro hm
      have hrg : r ∈ g := List.mem_of_mem_filter (argminFirst_mem hx)
      simp only [String.data_append, List.mem_append] at hm
      rcases hm with (((hm | hm) | hm) | hm) | hm
      · exact absurd hm (by decide)
      · exact hg r hrg hm
      · exact absurd hm (by decide)
      · exact decReprChars_no_hash _ hm
      · exact absurd hm (by decide)
  by_cases h6 : pergunta = "Qual foi o maior gasto em 2024?"
  · subst h6
    refine iff_of_false ?_ (by decide)
    cases hx : maxGasto2024 g with
    | none =>
      have hresp : responder_pergunta ("Qual foi o maior gasto em 2024?") evol det g
          = respostaErro msgArgmaxVazio := by
        simp [responder_pergunta, responderCore, hx]
      rw [hresp]
      exact not_infix_hash_of_not_mem (by decide)
    | some r =>
      have hresp : responder_pergunta ("Qual foi o maior gasto em 2024?") evol det g
          = "O maior gasto em 2024 é com **" ++ r.funcao
            ++ "**, no valor de **R$ " ++ decRepr r.valor_bi ++ " Bilhões**." := by
        simp [responder_pergunta, responderCore, hx]
      rw [hresp]
      apply not_infix_hash_of_not_mem
      intro hm
      have hrg : r ∈ g := List.mem_of_mem_filter (argmaxFirst_mem hx)
      simp only [String.data_append, List.mem_append] at hm
      rcases hm with (((hm | hm) | hm) | hm) | hm
      · exact absurd hm (by decide)
      · exact hg r hrg hm
      · exact absurd hm (by decide)
      · exact decReprChars_no_hash _ hm
      · exact absurd hm (by decide)
  by_cases h7 : pergunta = "Qual o principal credor da Dívida Pública?"
  · subst h7
    refine iff_of_false ?_ (by decide)
    cases hx : topDetentor det with
    | none =>
      have hresp : responder_pergunta ("Qual o principal credor da Dívida Pública?") evol det g
          = respostaErro msgArgmaxVazio := by
        simp [responder_pergunta, responderCore, hx]
      rw [hresp]
      exact not_infix_hash_of_not_mem (by decide)
    | some r =>
      have hresp : responder_pergunta ("Qual o principal credor da Dívida Pública?") evol det g
          = "O principal credor da Dívida Pública são os **" ++ r.credor
            ++ "**, detendo **" ++ decRepr r.porcentagem ++ "%** do total." := by
        simp [responder_pergunta, responderCore, hx]
      rw [hresp]
      apply not_infix_hash_of_not_mem
      intro hm
      have hrd : r ∈ det := argmaxFirst_mem hx
      simp only [String.data_append, List.mem_append] at hm
      rcases hm with (((hm | hm) | hm) | hm) | hm
      · exact absurd hm (by decide)
      · exact hd r hrd hm
      · exact absurd hm (by decide)
      · exact decReprChars_no_hash _ hm
      · exact absurd hm (by decide)
  by_cases h8 : pergunta = "Qual foi o ano com o maior estoque da Dívida?"
  · subst h8
    refine iff_of_false ?_ (by decide)
    cases hx : anoMaxEstoque evol with
    | none =>
      have hresp : responder_pergunta ("Qual foi o ano com o maior estoque da Dívida?") evol det g
          = respostaErro msgArgmaxVazio := by
        simp [responder_pergunta, responderCore, hx]
      rw [hresp]
      exact not_infix_hash_of_not_mem (by decide)
    | some r =>
      have hresp : responder_pergunta ("Qual foi o ano com o maior estoque da Dívida?") evol det g
          = "O ano com o maior estoque da Dívida Pública no período foi **"
            ++ intStr r.ano ++ "**, atingindo **R$ "
            ++ decRepr r.valor_trilhoes ++ " Trilhões**." := by
        simp [responder_pergunta, responderCore, hx]
      rw [hresp]
      apply not_infix_hash_of_not_mem
      intro hm
      simp only [String.data_append, List.mem_append] at hm
      rcases hm with (((hm | hm) | hm) | hm) | hm
      · exact absurd hm (by decide)
      · exact intStr_no_hash _ hm
      · exact absurd hm (by decide)
      · exact decReprChars_no_hash _ hm
      · exact absurd hm (by decide)
  by_cases h9 : pergunta = "Qual foi o ano com o menor estoque da Dívida?"
  · subst h9
    refine iff_of_false ?_ (by decide)
    cases hx : anoMinEstoque evol with
    | none =>
      have hresp : responder_pergunta ("Qual foi o ano com o menor estoque da Dívida?") evol det g
          = respostaErro msgArgminVazio := by
        simp [responder_pergunta, responderCore, hx]
      rw [hresp]
      exact not_infix_hash_of_not_mem (by decide)
    | some r =>
      have hresp : responder_pergunta ("Qual foi o ano com o menor estoque da Dívida?") evol det g
          = "O ano com o menor estoque da Dívida Pública no período foi **"
            ++ intStr r.ano ++ "**, com **R$ "
            ++ decRepr r.valor_trilhoes ++ " Trilhões**." := by
        simp [responder_pergunta, responderCore, hx]
      rw [hresp]
      apply not_infix_hash_of_not_mem
      intro hm
      simp only [String.data_append, List.mem_append] at hm
      rcases hm with (((hm | hm) | hm) | hm) | hm
      · exact absurd hm (by decide)
      · exact intStr_no_hash _ hm
      · exact absurd hm (by decide)
      · exact decReprChars_no_hash _ hm
      · exact absurd hm (by decide)
  have hresp : responder_pergunta pergunta evol det g = "Selecione uma pergunta." := by
    simp [responder_pergunta, responderCore, h1, h2, h3, h4, h5, h6, h7, h8, h9]
  refine iff_of_false ?_ ?_
  · rw [hresp]
    exact not_infix_hash_of_not_mem (by decide)
  · simp [perguntasListagem, h1, h2, h3]

unseal Rat.mul Rat.add Rat.sub Rat.inv Rat.ofScientific in
/-- C10 counterexample: with a creditor label that itself contains `###`,
the direct (non-listing) top-creditor answer contains the substring `###`,
so the presentation layer's `"###" in resposta` test misclassifies it — the
claimed equivalence fails as stated. -/
theorem hash_em_resposta_direta_com_rotulo_hash :
    List.IsInfix ['#', '#', '#']
      ((responder_pergunta ("Qual o principal credor da Dívida Pública?")
        [] [⟨"###", 26.1⟩] []).data)
    ∧ ("Qual o principal credor da Dívida Pública?" ∉ perguntasListagem) :=
  ⟨by decide, by decide⟩

/-- Witness for C10 (amended) at concrete hash-free tables and the
top-creditor question. -/
theorem marcador_lista_discrimina_listagens_wit :
    (∀ r ∈ ([] : List GastoRec), '#' ∉ r.funcao.data)
    ∧ (∀ r ∈ [(⟨"Fundos", 26.1⟩ : DetentorRec)], '#' ∉ r.credor.data)
    ∧ (List.IsInfix ['#', '#', '#']
        ((responder_pergunta ("Qual o principal credor da Dívida Pública?")
          [] [⟨"Fundos", 26.1⟩] []).data)
      ↔ "Qual o principal credor da Dívida Pública?" ∈ perguntasListagem) :=
  ⟨by decide, by decide,
    marcador_lista_discrimina_listagens [] [⟨"Fundos", 26.1⟩] []
      (by decide) (by decide) ("Qual o principal credor da Dívida Pública?")⟩
